import Mathlib

/-!
Verification of the hbdFlasher ESP32 bootloader protocol client
(src/script.js) against its specification.

The JavaScript source is shallowly embedded: byte buffers (Uint8Array)
become List Nat with every element understood to be below 256, fallible
code returns Except, and the retry loops are written as structurally
recursive Lean functions mirroring the JS control flow.  Device and
transport behaviour is abstracted as oracles (functions from attempt
index to reply) so that the retry and framing logic is deterministic.
-/

namespace HbdFlasher

set_option autoImplicit false

/-! ## Status-code classification (script.js lines 875-886) -/

/-- Embeds isSecureBootBlockingError: membership of the 16-bit status code
in the fixed table of known ESP32-S3 secure-boot rejection codes. -/
def isSecureBootBlockingError (statusCode : Nat) : Bool :=
  statusCode == 0x0106 || statusCode == 0x0105 || statusCode == 0x0103 ||
  statusCode == 0x0108 || statusCode == 0x010A

/-! ## SLIP framing codec (script.js lines 1133-1212) -/

/-- Escape substitution applied to one byte inside slipEncode:
0xDB becomes 0xDB 0xDD and 0xC0 becomes 0xDB 0xDC. -/
def slipEsc (b : Nat) : List Nat :=
  if b = 0xDB then [0xDB, 0xDD]
  else if b = 0xC0 then [0xDB, 0xDC]
  else [b]

/-- Body of slipEncode: the escaped payload followed by the closing
0xC0 frame delimiter. -/
def slipEncodeBody : List Nat → List Nat
  | [] => [0xC0]
  | b :: rest => slipEsc b ++ slipEncodeBody rest

/-- Embeds slipEncode: opening 0xC0 delimiter, escaped payload bytes,
closing 0xC0 delimiter. -/
def slipEncode (data : List Nat) : List Nat :=
  0xC0 :: slipEncodeBody data

/-- The byte-unstuffing loop of slipDecode.  The Bool argument is the
escaped flag: 0xC0 bytes are skipped, 0xDB sets the flag, and a byte seen
with the flag set resolves 0xDC to 0xC0 and 0xDD to 0xDB. -/
def rawDecodeAux : Bool → List Nat → List Nat
  | _, [] => []
  | escaped, b :: rest =>
    if b = 0xC0 then rawDecodeAux escaped rest
    else if b = 0xDB then rawDecodeAux true rest
    else if escaped then
      (if b = 0xDC then 0xC0 else if b = 0xDD then 0xDB else b) :: rawDecodeAux false rest
    else b :: rawDecodeAux false rest

/-- The errors slipDecode can raise while parsing a decoded response
frame with a nonzero first status byte. -/
inductive DecodeErr where
  | secureBootBlocked (status : Nat)
  | commandFailed (status : Nat)
deriving DecidableEq

/-- Embeds slipDecode: after byte-unstuffing, a buffer that parses as a
response frame (length at least 8, direction byte 0x01, length covering
the declared payload plus the two trailing status bytes) with a nonzero
first status byte raises either the secure-boot error or the generic
command failure; every other buffer is returned unchanged. -/
def slipDecode (data : List Nat) : Except DecodeErr (List Nat) :=
  let r := rawDecodeAux false data
  if 8 ≤ r.length then
    let size := r.getD 2 0 + 256 * r.getD 3 0
    if r.getD 0 0 = 1 ∧ 8 + size + 2 ≤ r.length then
      let s1 := r.getD (r.length - 2) 0
      if s1 ≠ 0 then
        let st := s1 + 256 * r.getD (r.length - 1) 0
        if isSecureBootBlockingError st then .error (.secureBootBlocked st)
        else .error (.commandFailed st)
      else .ok r
    else .ok r
  else .ok r

/-- The condition under which slipDecode raises, expressed over the
decoded buffer. -/
def slipFailCond (b : List Nat) : Bool :=
  decide (8 ≤ b.length) && decide (b.getD 0 0 = 1) &&
  decide (8 + (b.getD 2 0 + 256 * b.getD 3 0) + 2 ≤ b.length) &&
  decide (b.getD (b.length - 2) 0 ≠ 0)

/-- The error slipDecode raises when slipFailCond holds. -/
def slipStatusErr (b : List Nat) : DecodeErr :=
  let st := b.getD (b.length - 2) 0 + 256 * b.getD (b.length - 1) 0
  if isSecureBootBlockingError st then .secureBootBlocked st
  else .commandFailed st

/-! ## Command frames (script.js lines 1214-1259) -/

/-- Embeds calculateChecksum: XOR fold over the bytes, seeded with the
fixed constant 0xEF. -/
def calculateChecksum (data : List Nat) : Nat :=
  data.foldl (fun c b => c ^^^ b) 0xEF

/-- Little-endian two-byte encoding, as written by setUint16. -/
def toLE2 (v : Nat) : List Nat :=
  [v % 256, v / 256 % 256]

/-- Little-endian four-byte encoding, as written by setUint32. -/
def toLE4 (v : Nat) : List Nat :=
  [v % 256, v / 256 % 256, v / 65536 % 256, v / 16777216 % 256]

/-- The raw (pre-SLIP) command packet layout shared by createCommand and
createCommandWithCustomChecksum: direction byte 0x00, command byte,
16-bit little-endian payload length, 32-bit little-endian checksum,
then the payload bytes. -/
def commandPacket (cmd : Nat) (payload : List Nat) (checksum : Nat) : List Nat :=
  [0x00, cmd % 256] ++ toLE2 payload.length ++ toLE4 checksum ++ payload

/-- Embeds createCommand: checksum computed over the full payload, then
SLIP framed. -/
def createCommand (cmd : Nat) (payload : List Nat) : List Nat :=
  slipEncode (commandPacket cmd payload (calculateChecksum payload))

/-- Embeds createCommandWithCustomChecksum: the checksum is computed over
checksumData rather than the transmitted payload. -/
def createCommandWithCustomChecksum (cmd : Nat) (payload checksumData : List Nat) :
    List Nat :=
  slipEncode (commandPacket cmd payload (calculateChecksum checksumData))

/-- The 16-byte FLASH_DATA header prepended to a chunk: data length,
sequence number and two reserved zero words, all 32-bit little-endian
(script.js lines 1519-1524). -/
def flashDataHeader (data : List Nat) (sequence : Nat) : List Nat :=
  toLE4 data.length ++ toLE4 sequence ++ toLE4 0 ++ toLE4 0

/-- The raw FLASH_DATA packet built by esp32FlashData: opcode 0x03,
payload = header ++ chunk, checksum over the chunk bytes only. -/
def flashDataPacket (data : List Nat) (sequence : Nat) : List Nat :=
  commandPacket 0x03 (flashDataHeader data sequence ++ data) (calculateChecksum data)

/-- The SLIP-framed FLASH_DATA command actually written to the transport.
It is built once per chunk, before the retry loop. -/
def flashDataFrame (data : List Nat) (sequence : Nat) : List Nat :=
  slipEncode (flashDataPacket data sequence)

/-- Embeds the reboot flag computation of esp32FlashEnd
(script.js line 1584): 0 requests a reboot, 1 stays in the bootloader. -/
def flashEndFlag (reboot : Bool) : Nat :=
  if reboot then 0 else 1

/-- The 4-byte little-endian FLASH_END payload. -/
def flashEndPayload (reboot : Bool) : List Nat :=
  toLE4 (flashEndFlag reboot)

/-! ## FLASH_BEGIN size computations (script.js lines 1457-1487) -/

/-- Embeds the erase size of esp32FlashBegin: Math.ceil(size / 65536) * 65536,
the data length rounded up to the 64 KiB erase-block granularity. -/
def eraseSizeOf (size : Nat) : Nat :=
  ((size + 65535) / 65536) * 65536

/-- Embeds numPackets of esp32FlashBegin: Math.ceil(size / 1024), with the
declared packet size fixed at 1024 bytes. -/
def numPacketsOf (size : Nat) : Nat :=
  (size + 1023) / 1024

/-- Embeds the erase block count used for the FLASH_BEGIN timeout and the
large-erase stabilization path: Math.ceil(size / 65536). -/
def blocksOf (size : Nat) : Nat :=
  (size + 65535) / 65536

/-! ## Device reply oracle and retry loops -/

/-- One device reply to a written command, as seen through
readResponse and slipDecode: a successful response, an explicit failure
status, or no response within the timeout. -/
inductive DeviceReply where
  | ok
  | failStatus (code : Nat)
  | timeout
deriving DecidableEq

/-- Per-command errors, mirroring the error classification raised out of
slipDecode and readResponse. -/
inductive CmdErr where
  | secureBootBlocked (code : Nat)
  | commandFailed (code : Nat)
  | timeout
deriving DecidableEq

/-- Classifies a device reply the way readResponse plus slipDecode do:
a nonzero status in the secure-boot table raises SECURE_BOOT_BLOCKED,
any other nonzero status raises the generic command failure, and a
missing response raises the timeout error. -/
def replyToResult : DeviceReply → Except CmdErr Unit
  | .ok => .ok ()
  | .failStatus c =>
      .error (if isSecureBootBlockingError c then .secureBootBlocked c
              else .commandFailed c)
  | .timeout => .error .timeout

/-- The includes-SECURE_BOOT_BLOCKED test esp32FlashFirmware applies to a
caught error message. -/
def isSecureBootErr : CmdErr → Bool
  | .secureBootBlocked _ => true
  | _ => false

/-- Errors surfaced by the flash operation wrappers. -/
inductive FlashErr where
  | policyViolation (e : CmdErr)
  | beginFailed (e : CmdErr)
  | dataExhausted (e : CmdErr)
  | endFailed (e : CmdErr)
deriving DecidableEq

deriving instance DecidableEq for Except

/-- Result of one esp32FlashData call: the list of frames written to the
transport (in order) and the final outcome. -/
structure FDResult where
  writes : List (List Nat)
  result : Except FlashErr Unit
deriving DecidableEq

/-- Embeds the retry loop of esp32FlashData (script.js lines 1517-1574).
The command frame is built once, before the loop; each of the up to three
attempts writes that same frame.  Failures on attempts one and two fall
through to the next attempt (after delays and an optional health-check
sync that writes no FLASH_DATA frame); a failure on the third attempt
runs the bootloader recovery (sync commands only) and then writes the
same frame one final time, so a persistently failing device sees four
identical writes before the aggregated error is raised with the third
attempt's underlying cause. -/
def flashDataRun (o : Nat → DeviceReply) (data : List Nat) (sequence : Nat) :
    FDResult :=
  let cmd := flashDataFrame data sequence
  match replyToResult (o 0) with
  | .ok _ => ⟨[cmd], .ok ()⟩
  | .error _ =>
    match replyToResult (o 1) with
    | .ok _ => ⟨[cmd, cmd], .ok ()⟩
    | .error _ =>
      match replyToResult (o 2) with
      | .ok _ => ⟨[cmd, cmd, cmd], .ok ()⟩
      | .error e =>
        match replyToResult (o 3) with
        | .ok _ => ⟨[cmd, cmd, cmd, cmd], .ok ()⟩
        | .error _ => ⟨[cmd, cmd, cmd, cmd], .error (.dataExhausted e)⟩

/-- Embeds the FLASH_BEGIN retry loop of esp32FlashFirmware
(script.js lines 2082-2130): up to three attempts, but an error whose
message carries SECURE_BOOT_BLOCKED short-circuits the loop and is
rethrown as a policy violation without another attempt.  Returns the
number of FLASH_BEGIN commands issued and the outcome. -/
def flashBeginRun (o : Nat → DeviceReply) : Nat × Except FlashErr Unit :=
  match replyToResult (o 0) with
  | .ok _ => (1, .ok ())
  | .error e =>
    if isSecureBootErr e then (1, .error (.policyViolation e))
    else
      match replyToResult (o 1) with
      | .ok _ => (2, .ok ())
      | .error e2 =>
        if isSecureBootErr e2 then (2, .error (.policyViolation e2))
        else
          match replyToResult (o 2) with
          | .ok _ => (3, .ok ())
          | .error e3 =>
            if isSecureBootErr e3 then (3, .error (.policyViolation e3))
            else (3, .error (.beginFailed e3))

/-- Embeds the FLASH_END retry loop of esp32FlashEnd (script.js lines
1591-1611): three attempts with a fixed delay between them and no
secure-boot short-circuit of any kind. -/
def flashEndRun (o : Nat → DeviceReply) : Nat × Except FlashErr Unit :=
  match replyToResult (o 0) with
  | .ok _ => (1, .ok ())
  | .error _ =>
    match replyToResult (o 1) with
    | .ok _ => (2, .ok ())
    | .error _ =>
      match replyToResult (o 2) with
      | .ok _ => (3, .ok ())
      | .error e => (3, .error (.endFailed e))

/-! ## Sync retry structure (script.js lines 1285-1339) -/

/-- Outer connection-cycle budget of esp32Sync. -/
def syncConnectionCycles : Nat := 5

/-- Rapid sync attempts per connection cycle. -/
def syncAttemptsPerCycle : Nat := 7

/-- Per-attempt readResponse timeout of esp32Sync, in milliseconds. -/
def syncAttemptTimeoutMs : Nat := 100

/-- Errors raised out of the sync phase. -/
inductive SyncErr where
  | syncTimeout
deriving DecidableEq

/-- The inner attempt loop of esp32Sync: write the sync command, wait
with the short timeout, return on the first response.  The oracle maps
the global attempt index to whether a response arrived; base is the
index of the first attempt of this group. -/
def syncAttemptLoop (o : Nat → Bool) : Nat → Nat → Option Nat
  | _, 0 => none
  | base, n + 1 =>
    if o base then some base else syncAttemptLoop o (base + 1) n

/-- The outer connection-cycle loop of esp32Sync: each cycle makes
syncAttemptsPerCycle rapid attempts; between cycles the hardware reset
sequencer runs (which writes no sync command and cannot raise). -/
def syncCycleLoop (o : Nat → Bool) : Nat → Nat → Option Nat
  | _, 0 => none
  | cyc, c + 1 =>
    match syncAttemptLoop o (syncAttemptsPerCycle * cyc) syncAttemptsPerCycle with
    | some k => some k
    | none => syncCycleLoop o (cyc + 1) c

/-- Embeds esp32Sync: nested 5 times 7 retry groups; the index of the
first attempt that received a response is returned on success (the
source returns true there), and exhausting every cycle raises the fatal
sync-timeout error (the 35-attempts failure message). -/
def esp32SyncRun (o : Nat → Bool) : Except SyncErr Nat :=
  match syncCycleLoop o 0 syncConnectionCycles with
  | some k => .ok k
  | none => .error .syncTimeout

/-! ## Adaptive chunk size (script.js lines 688-720) -/

/-- The hardcoded flasher mode flags set in the ESP32Flasher constructor
(script.js lines 16-36). -/
structure Flags where
  secureBootEnabled : Bool
  romOnlyMode : Bool
  useOtaUpdate : Bool
deriving DecidableEq

/-- The constructor values: secure boot and ROM-only mode enabled, OTA
update mode enabled. -/
def constructorFlags : Flags := ⟨true, true, true⟩

/-- Embeds getAdaptiveChunkSize.  The JS compares fileSize / 1048576 as a
float against 1.0, 1.5, 2.0 and 3.0; division by the power of two and
those thresholds are exact in binary floating point, so the comparisons
translate to exact integer thresholds. -/
def getAdaptiveChunkSize (cfg : Flags) (fileSize : Nat) (isOtaOperation : Bool) :
    Nat :=
  if isOtaOperation && cfg.useOtaUpdate then
    if 3145728 ≤ fileSize then 2048
    else if 1048576 ≤ fileSize then 4096
    else 1024
  else if cfg.romOnlyMode || cfg.secureBootEnabled then
    if 3145728 ≤ fileSize then 256
    else if 1572864 ≤ fileSize then 384
    else 512
  else
    if 2097152 ≤ fileSize then 512
    else 1024

/-! ## Chunked transfer loop and session command trace
(script.js lines 2065-2199) -/

/-- The (sequence, chunkLength) pairs produced by the per-region chunk
loop: offset advances by the chunk size each pass and sequence counts up
from its starting value, so the chunk length is min chunkSize remaining.
The fuel argument (initialized to the data length) only makes the
termination of the JS for-loop evident: with a positive chunk size the
loop runs at most length iterations, so the fuel never runs out. -/
def chunkPairs (chunkSize : Nat) : Nat → Nat → Nat → List (Nat × Nat)
  | _, _, 0 => []
  | 0, _, _ + 1 => []
  | fuel + 1, seq, rem + 1 =>
    (seq, min chunkSize (rem + 1)) :: chunkPairs chunkSize fuel (seq + 1) (rem + 1 - chunkSize)

/-- One wire command of the session, at the protocol level the claims
describe. -/
inductive Cmd where
  | sync
  | flashBegin (eraseSize numPackets packetSize offset encrypted : Nat)
  | flashData (sequence len : Nat)
  | flashEnd (flag : Nat)
  | readReg (addr : Nat)
deriving DecidableEq

/-- One region handed over by the firmware image provider: data length,
target address and the isApplication marker (false unless set by the
loader). -/
structure FileRegion where
  size : Nat
  addr : Nat
  isApplication : Bool
deriving DecidableEq

/-- Commands issued by one esp32FlashBegin call when the device answers
with success: the FLASH_BEGIN frame (erase size, packet count, declared
packet size 1024, offset, encrypted-mode word from the secure boot flag),
followed by the quick verification sync that the large-erase
stabilization path (10 or more erase blocks) performs. -/
def esp32FlashBeginTrace (cfg : Flags) (size addr : Nat) : List Cmd :=
  Cmd.flashBegin (eraseSizeOf size) (numPacketsOf size) 1024 addr
    (if cfg.secureBootEnabled then 1 else 0)
  :: (if 10 ≤ blocksOf size then [Cmd.sync] else [])

/-- The FLASH_DATA commands of one region, from the chunk loop. -/
def regionDataTrace (chunkSize len : Nat) : List Cmd :=
  (chunkPairs chunkSize len 0 len).map fun p => Cmd.flashData p.1 p.2

/-- Commands issued for one firmware file by esp32FlashFirmware when
every command succeeds on its first attempt: FLASH_BEGIN, the chunked
FLASH_DATA transfer with the adaptive chunk size, FLASH_END with the
stay-in-bootloader flag, and (between files only) the quick sync check. -/
def fileTrace (cfg : Flags) (isLast : Bool) (f : FileRegion) : List Cmd :=
  esp32FlashBeginTrace cfg f.size f.addr
  ++ regionDataTrace (getAdaptiveChunkSize cfg f.size (cfg.useOtaUpdate && f.isApplication)) f.size
  ++ [Cmd.flashEnd (flashEndFlag false)]
  ++ (if isLast then [] else [Cmd.sync])

/-- The per-file loop of esp32FlashFirmware. -/
def filesTrace (cfg : Flags) : List FileRegion → List Cmd
  | [] => []
  | [f] => fileTrace cfg true f
  | f :: g :: rest => fileTrace cfg false f ++ filesTrace cfg (g :: rest)

/-- The OTA data partition address from the constructor otaConfig. -/
def otaDataPartitionAddr : Nat := 0x910000

/-- Commands issued by updateOtaDataPartition (script.js lines
1053-1088): the 8192-byte OTA data structure is flashed to the OTA data
partition in 1024-byte chunks and finished with a no-reboot FLASH_END. -/
def otaDataTrace (cfg : Flags) : List Cmd :=
  esp32FlashBeginTrace cfg 8192 otaDataPartitionAddr
  ++ regionDataTrace 1024 8192
  ++ [Cmd.flashEnd (flashEndFlag false)]

/-- Embeds esp32FlashFirmware under an always-successful device: every
file in order, then the OTA data partition update when OTA mode is on. -/
def flashFirmwareTrace (cfg : Flags) (files : List FileRegion) : List Cmd :=
  filesTrace cfg files ++ (if cfg.useOtaUpdate then otaDataTrace cfg else [])

/-- Commands issued after esp32FlashFirmware by performFinalVerification
and the final esp32FlashEnd call in handleFlash (script.js lines
2201-2251 and 282-298), with an always-successful device: a verification
sync, the six efuse register reads of verifyBootloaderFlashState, the
raw reboot FLASH_END written without awaiting a response, and the
esp32FlashEnd reboot command. -/
def finalizeTrace : List Cmd :=
  [Cmd.sync,
   Cmd.readReg 0x60007000, Cmd.readReg 0x60007048, Cmd.readReg 0x60007020,
   Cmd.readReg 0x60007000, Cmd.readReg 0x60007000, Cmd.readReg 0x60007000,
   Cmd.flashEnd (flashEndFlag true), Cmd.flashEnd (flashEndFlag true)]

/-- The full command trace of one flashing session whose device answers
every command with success on the first attempt: the initial sync, the
firmware transfer, and the finalization. -/
def sessionTrace (cfg : Flags) (files : List FileRegion) : List Cmd :=
  Cmd.sync :: flashFirmwareTrace cfg files ++ finalizeTrace

/-- The two regions of the happy-path scenario: 4096 bytes at address 0
and 2048 bytes at address 0x10000, neither marked as an application. -/
def happyFiles : List FileRegion :=
  [⟨4096, 0x0, false⟩, ⟨2048, 0x10000, false⟩]

/-- Projection of a command to its FLASH_DATA (sequence, length) pair. -/
def dataCmdProj : Cmd → Option (Nat × Nat)
  | .flashData s l => some (s, l)
  | _ => none

/-- The FLASH_DATA (sequence, length) pairs the happy-path scenario of
the specification claims: sequence numbers 0..3 then 0..1, all chunks of
1024 bytes.  This definition follows the words of the spec, for
comparison with the trace computed from the source. -/
def specClaimedHappyDataPairs : List (Nat × Nat) :=
  [(0, 1024), (1, 1024), (2, 1024), (3, 1024), (0, 1024), (1, 1024)]

/-! ## Hardware reset sequencer (script.js lines 452-516) -/

/-- The two control lines passed to setSignals: dataTerminalReady drives
EN and requestToSend drives GPIO0. -/
structure SignalState where
  dataTerminalReady : Bool
  requestToSend : Bool
deriving DecidableEq

/-- A serial port as performHardwareReset sees it: either setSignals is
not a function, or it is a callable that may itself raise.  The call is
indexed by its position in the waveform so one port value can make some
calls succeed and others raise. -/
structure PortModel where
  hasSetSignals : Bool
  setSignals : Nat → SignalState → Except String Unit

/-- Outcome of performHardwareReset: skipped because the port has no
setSignals, completed the five-step waveform, or caught an error raised
by a setSignals call (logged, then returned normally). -/
inductive ResetOutcome where
  | skippedNoSignals
  | completed
  | failedCaught (msg : String)
deriving DecidableEq

/-- The body of the try block of performHardwareReset: the five timed
setSignals calls of the ESP32-S3 bootloader-entry waveform, propagating
the first error.  Delays carry no observable state here. -/
def hardwareResetBody (p : PortModel) : Except String Unit := do
  _ ← p.setSignals 0 ⟨true, true⟩
  _ ← p.setSignals 1 ⟨true, false⟩
  _ ← p.setSignals 2 ⟨false, false⟩
  _ ← p.setSignals 3 ⟨true, false⟩
  p.setSignals 4 ⟨true, true⟩

/-- Embeds performHardwareReset: a port without setSignals support is
skipped with a log line, and any error raised inside the waveform is
caught and logged; in every case the function returns normally, which
the Except codomain makes observable. -/
def performHardwareReset (p : PortModel) : Except String ResetOutcome :=
  if p.hasSetSignals then
    match hardwareResetBody p with
    | .ok _ => .ok .completed
    | .error e => .ok (.failedCaught e)
  else .ok .skippedNoSignals

/-! ## Response reassembly (script.js lines 1404-1455) -/

/-- Errors of one readResponse call: the overall timeout when no chunk
ever ends with the delimiter, or an error raised by slipDecode on the
assembled frame. -/
inductive RRErr where
  | timeout
  | decode (e : DecodeErr)
deriving DecidableEq

/-- The recursive readChunk handler of readResponse: chunks accumulate,
and a frame is considered complete exactly when the just-received
chunk has 0xC0 as its final byte, at which point the concatenation of
all chunks is SLIP-decoded.  Exhausting the chunk list means the timer
fired first. -/
def readResponseGo (acc : List Nat) : List (List Nat) → Except RRErr (List Nat)
  | [] => .error .timeout
  | c :: rest =>
    if c.getLast? = some 0xC0 then
      match slipDecode (acc ++ c) with
      | .ok r => .ok r
      | .error e => .error (.decode e)
    else readResponseGo (acc ++ c) rest

/-- Embeds readResponse over the list of transport chunks delivered
before the timeout would fire. -/
def readResponseModel (chunks : List (List Nat)) : Except RRErr (List Nat) :=
  readResponseGo [] chunks

/-- Index of the first chunk whose final byte is the 0xC0 delimiter. -/
def firstDelimIdx : List (List Nat) → Option Nat
  | [] => none
  | c :: rest =>
    if c.getLast? = some 0xC0 then some 0
    else (firstDelimIdx rest).map (· + 1)

/-! ## Helper lemmas: SLIP codec -/

theorem rawDecodeAux_c0 (escaped : Bool) (l : List Nat) :
    rawDecodeAux escaped (0xC0 :: l) = rawDecodeAux escaped l := by
  simp [rawDecodeAux]

theorem rawDecode_encodeBody (b : List Nat) :
    rawDecodeAux false (slipEncodeBody b) = b := by
  induction b with
  | nil => simp [slipEncodeBody, rawDecodeAux]
  | cons x xs ih =>
    by_cases hdb : x = 0xDB
    · subst hdb
      simp [slipEncodeBody, slipEsc, rawDecodeAux, ih]
    · by_cases hc0 : x = 0xC0
      · subst hc0
        simp [slipEncodeBody, slipEsc, rawDecodeAux, ih]
      · simp [slipEncodeBody, slipEsc, hdb, hc0, rawDecodeAux, ih]

theorem slip_roundtrip (b : List Nat) :
    rawDecodeAux false (slipEncode b) = b := by
  rw [slipEncode, rawDecodeAux_c0, rawDecode_encodeBody]

/-- C2 counterexample: the ten-byte sequence 01 00 00 00 00 00 00 00 01 00
survives the byte-stuffing round trip unchanged, but slipDecode then
parses it as a response frame (direction 0x01, declared size 0) whose
first status byte is nonzero and raises the command-failed error, so
slipDecode applied to slipEncode of that sequence does not return it. -/
theorem c2_counterexample :
    slipDecode (slipEncode [1, 0, 0, 0, 0, 0, 0, 0, 1, 0]) =
      .error (.commandFailed 1) := by decide

/-- C2 amended: for every byte sequence b, slipDecode (slipEncode b)
returns exactly b unless b itself parses as a failed response frame
(length at least 8, first byte 0x01, length covering the declared
payload plus two status bytes, nonzero second-to-last byte), in which
case it raises the status error instead of returning. -/
theorem c2_amended_roundtrip (b : List Nat) :
    slipDecode (slipEncode b) =
      if slipFailCond b then .error (slipStatusErr b) else .ok b := by
  have h := slip_roundtrip b
  simp only [slipDecode, h, slipFailCond, slipStatusErr, Bool.and_eq_true,
    decide_eq_true_eq]
  split_ifs <;> first | rfl | tauto

/-- C1 counterexample: with a device that answers every FLASH_DATA with
the status 0x0103 - a code that isSecureBootBlockingError classifies as
a secure-boot rejection - esp32FlashData still writes the command four
times (three loop attempts plus the post-recovery retry), consuming the
whole retry budget before failing, instead of failing after the first
response as the claim requires of every command class. -/
theorem c1_counterexample :
    isSecureBootBlockingError 0x0103 = true ∧
    (flashDataRun (fun _ => .failStatus 0x0103) [1, 2] 0).writes.length = 4 ∧
    (flashDataRun (fun _ => .failStatus 0x0103) [1, 2] 0).result =
      .error (.dataExhausted (.secureBootBlocked 0x0103)) := by decide

/-- C1 amended: a secure-boot-classified status short-circuits the retry
loop only for FLASH_BEGIN, which fails as a policy violation after a
single attempt; FLASH_DATA treats it like any other failure and writes
the command four times (three attempts plus the post-recovery retry),
and FLASH_END likewise retries its full three attempts, before each
fails. -/
theorem c1_amended_policy (s : Nat) (d : List Nat) (seq : Nat)
    (h : isSecureBootBlockingError s = true) :
    flashBeginRun (fun _ => .failStatus s) =
      (1, .error (.policyViolation (.secureBootBlocked s))) ∧
    (flashDataRun (fun _ => .failStatus s) d seq).writes.length = 4 ∧
    (flashDataRun (fun _ => .failStatus s) d seq).result =
      .error (.dataExhausted (.secureBootBlocked s)) ∧
    flashEndRun (fun _ => .failStatus s) =
      (3, .error (.endFailed (.secureBootBlocked s))) := by
  simp [flashBeginRun, flashDataRun, flashEndRun, replyToResult, h, isSecureBootErr]

/-- C1 witness: the amended theorem applied to the secure-boot status
0x0105 and a concrete chunk. -/
theorem c1_amended_policy_witness :
    isSecureBootBlockingError 0x0105 = true ∧
    (flashBeginRun (fun _ => .failStatus 0x0105) =
       (1, .error (.policyViolation (.secureBootBlocked 0x0105))) ∧
     (flashDataRun (fun _ => .failStatus 0x0105) [7] 1).writes.length = 4 ∧
     (flashDataRun (fun _ => .failStatus 0x0105) [7] 1).result =
       .error (.dataExhausted (.secureBootBlocked 0x0105)) ∧
     flashEndRun (fun _ => .failStatus 0x0105) =
       (3, .error (.endFailed (.secureBootBlocked 0x0105)))) :=
  ⟨by decide, c1_amended_policy 0x0105 [7] 1 (by decide)⟩

/-- C3 counterexample: under the constructor configuration (secure boot,
ROM-only and OTA mode all hardcoded on), the FLASH_DATA commands of the
happy-path session differ from the claimed ones: the two regions are
sent in 512-byte chunks with sequence numbers 0..7 and 0..3, and an OTA
data partition write follows, so the (sequence, length) pairs are not
the claimed 1024-byte pairs 0..3 and 0..1. -/
theorem c3_counterexample :
    (sessionTrace constructorFlags happyFiles).filterMap dataCmdProj ≠
      specClaimedHappyDataPairs := by decide

/-- C3 amended: for the two-region provider and an always-successful
device, the session issues Sync, Begin(region0) declaring 4 packets of
1024 bytes, eight 512-byte Data chunks with sequence numbers 0..7,
End(stay), a quick Sync, Begin(region1), four 512-byte Data chunks with
sequence numbers 0..3, End(stay), then the OTA-data-partition write
(Begin at 0x910000, eight 1024-byte Data chunks 0..7, End(stay)), a
verification Sync, six register reads, and two reboot End commands, and
the run completes successfully. -/
theorem c3_amended_trace :
    sessionTrace constructorFlags happyFiles =
      [Cmd.sync,
       Cmd.flashBegin 65536 4 1024 0x0 1,
       Cmd.flashData 0 512, Cmd.flashData 1 512, Cmd.flashData 2 512,
       Cmd.flashData 3 512, Cmd.flashData 4 512, Cmd.flashData 5 512,
       Cmd.flashData 6 512, Cmd.flashData 7 512,
       Cmd.flashEnd 1,
       Cmd.sync,
       Cmd.flashBegin 65536 2 1024 0x10000 1,
       Cmd.flashData 0 512, Cmd.flashData 1 512, Cmd.flashData 2 512,
       Cmd.flashData 3 512,
       Cmd.flashEnd 1,
       Cmd.flashBegin 65536 8 1024 0x910000 1,
       Cmd.flashData 0 1024, Cmd.flashData 1 1024, Cmd.flashData 2 1024,
       Cmd.flashData 3 1024, Cmd.flashData 4 1024, Cmd.flashData 5 1024,
       Cmd.flashData 6 1024, Cmd.flashData 7 1024,
       Cmd.flashEnd 1,
       Cmd.sync,
       Cmd.readReg 0x60007000, Cmd.readReg 0x60007048, Cmd.readReg 0x60007020,
       Cmd.readReg 0x60007000, Cmd.readReg 0x60007000, Cmd.readReg 0x60007000,
       Cmd.flashEnd 0, Cmd.flashEnd 0] := by decide

/-- C5: the checksum field of the FLASH_DATA frame (bytes 4 to 7 of the
raw packet, little endian) is the XOR fold of the raw chunk bytes seeded
with 0xEF, for every chunk and every sequence number; the 16-byte
dataLen/sequence/reserved header prepended to the chunk does not enter
the checksum. -/
theorem c5_checksum_scope (d : List Nat) (seq : Nat) :
    ((flashDataPacket d seq).drop 4).take 4 =
      toLE4 (d.foldl (fun c b => c ^^^ b) 0xEF) := by
  rfl

/-- C7: the FLASH_END payload is one 4-byte little-endian word, 0 when a
reboot is requested and 1 when the device should stay in the bootloader,
for both values of the reboot argument. -/
theorem c7_flash_end_payload :
    flashEndPayload true = [0, 0, 0, 0] ∧ flashEndPayload false = [1, 0, 0, 0] := by
  decide

/-- C8: for every region byte length, the erase size sent in FLASH_BEGIN
is at least the length, is a multiple of 65536, and is at most every
multiple of 65536 that is at least the length - it is the smallest
64 KiB multiple covering the data. -/
theorem c8_erase_size (size : Nat) :
    size ≤ eraseSizeOf size ∧ 65536 ∣ eraseSizeOf size ∧
    ∀ m : Nat, size ≤ m → 65536 ∣ m → eraseSizeOf size ≤ m := by
  refine ⟨?_, Dvd.intro_left _ rfl, ?_⟩
  · unfold eraseSizeOf
    omega
  · intro m h1 h2
    obtain ⟨k, rfl⟩ := h2
    unfold eraseSizeOf
    omega

/-- C8 witness: the theorem applied to a 100-byte region and the
multiple 65536. -/
theorem c8_erase_size_witness :
    100 ≤ eraseSizeOf 100 ∧ 65536 ∣ eraseSizeOf 100 ∧
    eraseSizeOf 100 ≤ 65536 :=
  ⟨(c8_erase_size 100).1, (c8_erase_size 100).2.1,
   (c8_erase_size 100).2.2 65536 (by decide) (dvd_refl 65536)⟩

/-- C9: performHardwareReset returns normally for every port model - in
particular for a port without setSignals support, which is skipped, and
for a port whose setSignals calls raise, whose error is caught - so the
session can always continue to the sync phase. -/
theorem c9_reset_never_raises :
    (∀ p : PortModel, (performHardwareReset p).isOk = true) ∧
    performHardwareReset ⟨false, fun _ _ => .ok ()⟩ = .ok .skippedNoSignals ∧
    performHardwareReset ⟨true, fun _ _ => .error "setSignals unsupported"⟩ =
      .ok (.failedCaught "setSignals unsupported") := by
  refine ⟨fun p => ?_, rfl, rfl⟩
  unfold performHardwareReset
  by_cases h : p.hasSetSignals
  · simp only [h, if_true]
    cases hardwareResetBody p <;> rfl
  · simp only [h, if_false, Bool.false_eq_true]
    rfl

/-! ## Helper lemmas: chunk loop -/

theorem chunkPairs_map_fst (cs : Nat) :
    ∀ fuel seq rem, (chunkPairs cs fuel seq rem).map Prod.fst =
      List.range' seq (chunkPairs cs fuel seq rem).length := by
  intro fuel
  induction fuel with
  | zero =>
    intro seq rem
    cases rem <;> simp [chunkPairs]
  | succ f ih =>
    intro seq rem
    cases rem with
    | zero => simp [chunkPairs]
    | succ r => simp [chunkPairs, ih, List.range'_succ]

theorem flashDataRun_writes (o : Nat → DeviceReply) (d : List Nat) (seq : Nat) :
    ∀ w ∈ (flashDataRun o d seq).writes, w = flashDataFrame d seq := by
  intro w hw
  unfold flashDataRun at hw
  rcases h0 : replyToResult (o 0) with _ | _ <;>
    rcases h1 : replyToResult (o 1) with _ | _ <;>
    rcases h2 : replyToResult (o 2) with _ | _ <;>
    rcases h3 : replyToResult (o 3) with _ | _ <;>
    simp only [h0, h1, h2, h3] at hw <;>
    simp only [List.mem_cons, List.mem_singleton, List.not_mem_nil, or_false] at hw <;>
    tauto

/-- C4: within one region, the sequence numbers of the FLASH_DATA
commands produced by the chunk loop are exactly 0..chunkCount-1 in
increasing order, where chunkCount is the number of chunks the loop
splits the data into; and every frame a retrying esp32FlashData call
writes is the identical command built once before its retry loop, so a
retried chunk resends the same sequence number and bytes. -/
theorem c4_sequence_numbers :
    (∀ len cs : Nat, 0 < cs →
       (chunkPairs cs len 0 len).map Prod.fst =
         List.range (chunkPairs cs len 0 len).length) ∧
    (∀ (o : Nat → DeviceReply) (d : List Nat) (seq : Nat),
       ∀ w ∈ (flashDataRun o d seq).writes, w = flashDataFrame d seq) := by
  constructor
  · intro len cs _
    rw [List.range_eq_range']
    exact chunkPairs_map_fst cs len 0 len
  · exact flashDataRun_writes

/-- C4 witness: the sequence-number part at a 4096-byte region with
512-byte chunks, and the identical-retry part at a concrete oracle whose
first attempt times out. -/
theorem c4_sequence_numbers_witness :
    0 < 512 ∧
    (chunkPairs 512 4096 0 4096).map Prod.fst =
      List.range (chunkPairs 512 4096 0 4096).length ∧
    flashDataFrame [7] 0 ∈
      (flashDataRun (fun n => if n = 0 then .timeout else .ok) [7] 0).writes ∧
    flashDataFrame [7] 0 = flashDataFrame [7] 0 :=
  ⟨by decide, c4_sequence_numbers.1 4096 512 (by decide), by decide,
   c4_sequence_numbers.2 (fun n => if n = 0 then .timeout else .ok) [7] 0
     (flashDataFrame [7] 0) (by decide)⟩

/-! ## Helper lemmas: sync loops -/

theorem syncAttemptLoop_split (o : Nat → Bool) :
    ∀ m n base, syncAttemptLoop o base (m + n) =
      match syncAttemptLoop o base m with
      | some k => some k
      | none => syncAttemptLoop o (base + m) n := by
  intro m
  induction m with
  | zero =>
    intro n base
    simp [syncAttemptLoop]
  | succ m ih =>
    intro n base
    have hadd : m + 1 + n = (m + n) + 1 := by omega
    rw [hadd]
    simp only [syncAttemptLoop]
    by_cases hb : o base
    · simp [hb]
    · simp only [hb, if_false, Bool.false_eq_true]
      rw [ih n (base + 1)]
      have : base + 1 + m = base + (m + 1) := by omega
      rw [this]

theorem syncAttemptLoop_some_iff (o : Nat → Bool) :
    ∀ n base k, syncAttemptLoop o base n = some k ↔
      (base ≤ k ∧ k < base + n ∧ o k = true ∧
       ∀ j, base ≤ j → j < k → o j = false) := by
  intro n
  induction n with
  | zero =>
    intro base k
    simp only [syncAttemptLoop]
    constructor
    · intro h
      exact absurd h (by simp)
    · rintro ⟨h1, h2, _, _⟩
      omega
  | succ n ih =>
    intro base k
    simp only [syncAttemptLoop]
    by_cases hb : o base
    · simp only [hb, if_true, Option.some.injEq]
      constructor
      · rintro rfl
        exact ⟨le_refl _, by omega, hb, fun j hj1 hj2 => by omega⟩
      · rintro ⟨h1, _, _, h4⟩
        by_contra hne
        have hlt : base < k := by omega
        have := h4 base (le_refl _) hlt
        simp [this] at hb
    · simp only [hb, if_false, Bool.false_eq_true]
      rw [ih (base + 1) k]
      have hbf : o base = false := by
        cases h : o base
        · rfl
        · exact absurd h hb
      constructor
      · rintro ⟨h1, h2, h3, h4⟩
        refine ⟨by omega, by omega, h3, fun j hj1 hj2 => ?_⟩
        by_cases hj : j = base
        · subst hj
          exact hbf
        · exact h4 j (by omega) hj2
      · rintro ⟨h1, h2, h3, h4⟩
        refine ⟨?_, by omega, h3, fun j hj1 hj2 => h4 j (by omega) hj2⟩
        rcases Nat.lt_or_ge k (base + 1) with h | h
        · have : k = base := by omega
          subst this
          simp [h3] at hbf
        · exact h

theorem syncAttemptLoop_none_iff (o : Nat → Bool) :
    ∀ n base, syncAttemptLoop o base n = none ↔
      ∀ j, base ≤ j → j < base + n → o j = false := by
  intro n
  induction n with
  | zero =>
    intro base
    simp only [syncAttemptLoop]
    constructor
    · intro _ j hj1 hj2
      omega
    · intro _
      trivial
  | succ n ih =>
    intro base
    simp only [syncAttemptLoop]
    by_cases hb : o base
    · simp only [hb, if_true]
      constructor
      · intro h
        exact absurd h (by simp)
      · intro h
        have := h base (le_refl _) (by omega)
        simp [this] at hb
    · simp only [hb, if_false, Bool.false_eq_true]
      rw [ih (base + 1)]
      have hbf : o base = false := by
        cases h : o base
        · rfl
        · exact absurd h hb
      constructor
      · intro h j hj1 hj2
        by_cases hj : j = base
        · subst hj
          exact hbf
        · exact h j (by omega) (by omega)
      · intro h j hj1 hj2
        exact h j (by omega) (by omega)

theorem syncCycleLoop_eq (o : Nat → Bool) :
    ∀ c cyc, syncCycleLoop o cyc c = syncAttemptLoop o (7 * cyc) (7 * c) := by
  intro c
  induction c with
  | zero =>
    intro cyc
    simp [syncCycleLoop, syncAttemptLoop]
  | succ c ih =>
    intro cyc
    simp only [syncCycleLoop, syncAttemptsPerCycle]
    have h1 : 7 * (c + 1) = 7 + 7 * c := by ring
    rw [h1, syncAttemptLoop_split o 7 (7 * c) (7 * cyc)]
    rw [ih (cyc + 1)]
    have h2 : 7 * cyc + 7 = 7 * (cyc + 1) := by ring
    rw [h2]

/-- C6: the sync phase runs 5 connection cycles of 7 rapid attempts with
the 100 ms per-attempt timeout, with the reset sequencer invoked between
cycles; it succeeds exactly on the first of the 35 attempts that
receives a response, and raises the fatal sync-timeout error exactly
when every attempt across the outer budget fails. -/
theorem c6_sync_retry_policy :
    (syncConnectionCycles = 5 ∧ syncAttemptsPerCycle = 7 ∧
     syncAttemptTimeoutMs = 100) ∧
    ∀ o : Nat → Bool,
      (∀ k, esp32SyncRun o = .ok k ↔
        (k < 35 ∧ o k = true ∧ ∀ j, j < k → o j = false)) ∧
      (esp32SyncRun o = .error .syncTimeout ↔ ∀ j, j < 35 → o j = false) := by
  have hlin : ∀ o : Nat → Bool,
      syncCycleLoop o 0 syncConnectionCycles = syncAttemptLoop o 0 35 := by
    intro o
    have h := syncCycleLoop_eq o syncConnectionCycles 0
    simpa [syncConnectionCycles] using h
  refine ⟨⟨rfl, rfl, rfl⟩, fun o => ⟨fun k => ?_, ?_⟩⟩
  · unfold esp32SyncRun
    rw [hlin o]
    rcases h35 : syncAttemptLoop o 0 35 with _ | k'
    · simp only [h35]
      constructor
      · intro h
        exact absurd h (by simp)
      · rintro ⟨h1, h2, h3⟩
        have := (syncAttemptLoop_none_iff o 35 0).mp h35 k (by omega) (by omega)
        simp [this] at h2
    · simp only [h35, Except.ok.injEq]
      have hk' := (syncAttemptLoop_some_iff o 35 0 k').mp h35
      constructor
      · rintro rfl
        exact ⟨by omega, hk'.2.2.1, fun j hj => hk'.2.2.2 j (by omega) hj⟩
      · rintro ⟨h1, h2, h3⟩
        have hkk : syncAttemptLoop o 0 35 = some k :=
          (syncAttemptLoop_some_iff o 35 0 k).mpr
            ⟨by omega, by omega, h2, fun j hj1 hj2 => h3 j hj2⟩
        rw [h35] at hkk
        exact Option.some.injEq _ _ ▸ hkk
  · unfold esp32SyncRun
    rw [hlin o]
    rcases h35 : syncAttemptLoop o 0 35 with _ | k'
    · simp only [h35]
      have := (syncAttemptLoop_none_iff o 35 0).mp h35
      constructor
      · intro _ j hj
        exact this j (by omega) (by omega)
      · intro _
        trivial
    · simp only [h35]
      have hk' := (syncAttemptLoop_some_iff o 35 0 k').mp h35
      constructor
      · intro h
        exact absurd h (by simp)
      · intro h
        have := h k' (by omega)
        simp [this] at hk'

/-- C6 witness: the characterization applied to an oracle whose ninth
attempt is the first to receive a response. -/
theorem c6_sync_retry_policy_witness :
    esp32SyncRun (fun k => decide (k = 8)) = .ok 8 :=
  ((c6_sync_retry_policy.2 (fun k => decide (k = 8))).1 8).mpr
    ⟨by decide, by decide, by decide⟩

/-! ## Helper lemmas: response reassembly -/

theorem readResponseGo_eq (chunks : List (List Nat)) :
    ∀ acc, readResponseGo acc chunks =
      match firstDelimIdx chunks with
      | none => .error .timeout
      | some i =>
        match slipDecode (acc ++ (chunks.take (i + 1)).flatten) with
        | .ok r => .ok r
        | .error e => .error (.decode e) := by
  induction chunks with
  | nil =>
    intro acc
    simp [readResponseGo, firstDelimIdx]
  | cons c rest ih =>
    intro acc
    by_cases hc : c.getLast? = some 0xC0
    · simp [readResponseGo, firstDelimIdx, hc]
    · simp only [readResponseGo, firstDelimIdx, hc, if_false]
      rw [ih (acc ++ c)]
      cases hf : firstDelimIdx rest with
      | none => simp
      | some i => simp [List.append_assoc]

/-- C10 counterexample: a single chunk whose final byte is the 0xC0
delimiter, so the claimed iff promises that readResponse resolves with
the decoded frame; but the decoded frame carries a nonzero status byte,
slipDecode raises, and the call rejects instead of resolving. -/
theorem c10_counterexample :
    ([0xC0, 1, 0, 0, 0, 0, 0, 0, 0, 1, 0, 0xC0] : List Nat).getLast? =
      some 0xC0 ∧
    (readResponseModel [[0xC0, 1, 0, 0, 0, 0, 0, 0, 0, 1, 0, 0xC0]]).isOk =
      false := by decide

/-- C10 amended: readResponse completes the frame exactly when some
received chunk has 0xC0 as its final byte; at the first such chunk it
returns the result of SLIP-decoding the concatenation of all chunks so
far, resolving if the decode succeeds and rejecting with the decode
error otherwise, and it rejects with the timeout when no chunk ends
with the delimiter - in particular a delimiter arriving mid-chunk with
further bytes after it in the same chunk never completes the frame,
even though a full delimited frame was received. -/
theorem c10_amended_completion :
    (∀ chunks : List (List Nat), readResponseModel chunks =
      match firstDelimIdx chunks with
      | none => .error .timeout
      | some i =>
        match slipDecode ((chunks.take (i + 1)).flatten) with
        | .ok r => .ok r
        | .error e => .error (.decode e)) ∧
    readResponseModel [[0xC0, 0x41, 0xC0, 0x42]] = .error .timeout := by
  refine ⟨fun chunks => ?_, by decide⟩
  have h := readResponseGo_eq chunks []
  simpa [readResponseModel] using h

end HbdFlasher
